import Mathlib

/-!
Verification development for the ml4t.live trading package.

The repository ships `src/ml4t/live/__init__.py`, which re-exports the public
API of the package. The implementation modules it imports (`safety.py`,
`feeds/aggregator.py`, `engine.py`, ...) are not part of the source tree, so
the risk-gate, virtual-portfolio and bar-aggregation machinery below is
modelled from the specification document, faithful to its words. The export
lists are embedded directly from `__init__.py`.
-/

/-- Names bound by the import statements of `src/ml4t/live/__init__.py`,
in the order the import lines bind them. -/
def importedNames : List String :=
  ["AlpacaBroker", "IBBroker", "LiveEngine", "BarAggregator", "BarBuffer",
   "AlpacaDataFeed", "AsyncBrokerProtocol", "BrokerProtocol",
   "DataFeedProtocol", "LiveRiskConfig", "RiskLimitError", "RiskState",
   "SafeBroker", "VirtualPortfolio", "ThreadSafeBrokerWrapper"]

/-- The `__all__` list of `src/ml4t/live/__init__.py`, in file order. -/
def module_all : List String :=
  ["AlpacaBroker", "IBBroker", "AlpacaDataFeed", "BarAggregator", "BarBuffer",
   "LiveEngine", "AsyncBrokerProtocol", "BrokerProtocol", "DataFeedProtocol",
   "LiveRiskConfig", "RiskLimitError", "RiskState", "SafeBroker",
   "VirtualPortfolio", "ThreadSafeBrokerWrapper"]

/-- Names imported from the `.safety` module by `__init__.py`
(`from .safety import LiveRiskConfig, RiskLimitError, RiskState, SafeBroker,
VirtualPortfolio`). -/
def safety_imports : List String :=
  ["LiveRiskConfig", "RiskLimitError", "RiskState", "SafeBroker",
   "VirtualPortfolio"]

/-- Side of an order intent. -/
inductive Side where
  | buy
  | sell
deriving DecidableEq

/-- Modelled from the spec: `OrderIntent` of the missing `ml4t/live/safety.py`
(spec section 3): symbol, side, quantity, limit price, client-assigned id.
Prices and quantities are integers (prices in minimal currency units). -/
structure OrderIntent where
  symbol : String
  side : Side
  qty : Int
  price : Int
  clientId : Nat
deriving DecidableEq

/-- Notional value of an order intent: quantity times price. -/
def notional (o : OrderIntent) : Int := o.qty * o.price

/-- Signed notional of an order intent: positive for a buy, negative for a
sell, matching the spec's projected exposure of current exposure plus or
minus order notional. -/
def signedNotional (o : OrderIntent) : Int :=
  match o.side with
  | Side.buy => notional o
  | Side.sell => -(notional o)

/-- Modelled from the spec: `LiveRiskConfig` of the missing
`ml4t/live/safety.py` (spec sections 3 and 6): immutable risk limits.
The worst-case adverse-fill loss formula is a configurable policy choice
per the spec's design notes, so it is a function field here. -/
structure LiveRiskConfig where
  max_order_notional : Int
  max_symbol_exposure : Int
  max_aggregate_exposure : Int
  max_daily_loss : Int
  max_orders_per_window : Nat
  window_duration : Nat
  worst_case_loss : OrderIntent → Int

/-- Modelled from the spec: `RiskState` of the missing `ml4t/live/safety.py`
(spec section 3): current exposure per symbol, maintained aggregate exposure
(sum of absolute per-symbol exposures touched so far), running daily loss
(positive means loss), order count in the current rolling window, and the
kill-switch flag. -/
structure RiskState where
  exposure : String → Int
  aggExposure : Int
  dailyLoss : Int
  windowCount : Nat
  killSwitch : Bool

/-- Reasons an order intent can be rejected by the risk gate. -/
inductive RejectReason where
  | killSwitchTripped
  | exposureLimit
  | dailyLossLimit
  | orderRateLimit
deriving DecidableEq

/-- Outcome of `evaluate_and_reserve`: approved, or rejected with a reason. -/
inductive RiskOutcome where
  | approved
  | rejected (reason : RejectReason)
deriving DecidableEq

/-- Modelled from the spec: the atomic reservation commit of the missing
`ml4t/live/safety.py` (spec section 4.3) — on approval the projected
exposure is written back and the rolling order counter advances, before the
order leaves the component. -/
def commitReservation (s : RiskState) (o : OrderIntent) : RiskState :=
  { s with
    exposure := fun x =>
      if x = o.symbol then s.exposure o.symbol + signedNotional o
      else s.exposure x,
    aggExposure :=
      s.aggExposure + |s.exposure o.symbol + signedNotional o|
        - |s.exposure o.symbol|,
    windowCount := s.windowCount + 1 }

/-- Modelled from the spec: `RiskState.evaluate_and_reserve` of the missing
`ml4t/live/safety.py` (spec section 4.3). Reject if the kill-switch is
tripped, if projected exposure exceeds the per-symbol or aggregate limit, if
the projected worst-case daily loss bound exceeds the daily loss limit, or
if the rolling order-rate counter exceeds its window limit; otherwise commit
the reservation atomically and approve. Returns the outcome together with
the successor state. -/
def evaluate_and_reserve (cfg : LiveRiskConfig) (s : RiskState)
    (o : OrderIntent) : RiskOutcome × RiskState :=
  if s.killSwitch then
    (RiskOutcome.rejected RejectReason.killSwitchTripped, s)
  else if cfg.max_symbol_exposure < |s.exposure o.symbol + signedNotional o| ∨
      cfg.max_aggregate_exposure <
        s.aggExposure + |s.exposure o.symbol + signedNotional o|
          - |s.exposure o.symbol| then
    (RiskOutcome.rejected RejectReason.exposureLimit, s)
  else if cfg.max_daily_loss < s.dailyLoss + cfg.worst_case_loss o then
    (RiskOutcome.rejected RejectReason.dailyLossLimit, s)
  else if cfg.max_orders_per_window ≤ s.windowCount then
    (RiskOutcome.rejected RejectReason.orderRateLimit, s)
  else
    (RiskOutcome.approved, commitReservation s o)

/-- Modelled from the spec: reservation release of the missing
`ml4t/live/safety.py` (spec sections 4.3 and 4.5) — on cancellation,
timeout or broker failure the reserved signed notional is backed out of the
per-symbol exposure and the aggregate is adjusted accordingly. -/
def release_reservation (s : RiskState) (o : OrderIntent) : RiskState :=
  { s with
    exposure := fun x =>
      if x = o.symbol then s.exposure o.symbol - signedNotional o
      else s.exposure x,
    aggExposure :=
      s.aggExposure + |s.exposure o.symbol - signedNotional o|
        - |s.exposure o.symbol| }

/-- Modelled from the spec: daily P&L update of the missing
`ml4t/live/safety.py` (spec section 4.3) — crossing the configured loss
limit trips the kill-switch as a side effect; an already tripped switch
stays tripped. -/
def record_pnl (cfg : LiveRiskConfig) (s : RiskState) (lossDelta : Int) :
    RiskState :=
  { s with
    dailyLoss := s.dailyLoss + lossDelta,
    killSwitch :=
      s.killSwitch || decide (cfg.max_daily_loss < s.dailyLoss + lossDelta) }

/-- Modelled from the spec: the explicit operator kill-switch reset of the
missing `ml4t/live/safety.py` (spec section 6) — the only action that
clears the flag. -/
def reset_kill_switch (s : RiskState) : RiskState :=
  { s with killSwitch := false }

/-- Operations that mutate `RiskState`: risk evaluation, reservation
release, P&L recording, and the explicit operator reset. -/
inductive RiskOp where
  | eval (o : OrderIntent)
  | release (o : OrderIntent)
  | recordPnl (lossDelta : Int)
  | operatorReset
deriving DecidableEq

/-- One `RiskState` transition for a `RiskOp`. -/
def stepRisk (cfg : LiveRiskConfig) (s : RiskState) : RiskOp → RiskState
  | RiskOp.eval o => (evaluate_and_reserve cfg s o).2
  | RiskOp.release o => release_reservation s o
  | RiskOp.recordPnl d => record_pnl cfg s d
  | RiskOp.operatorReset => reset_kill_switch s

/-- State reached after a sequence of `evaluate_and_reserve` calls (the
serialized interleaving of concurrent callers: the spec makes the commit
atomic, so every interleaving is some sequential order). -/
def run_evals (cfg : LiveRiskConfig) (s : RiskState) :
    List OrderIntent → RiskState
  | [] => s
  | o :: os => run_evals cfg (evaluate_and_reserve cfg s o).2 os

/-- Number of approved calls in a sequence of `evaluate_and_reserve` calls,
each call seeing the state left by the previous one. -/
def count_approved (cfg : LiveRiskConfig) (s : RiskState) :
    List OrderIntent → Nat
  | [] => 0
  | o :: os =>
    (if (evaluate_and_reserve cfg s o).1 = RiskOutcome.approved then 1 else 0)
      + count_approved cfg (evaluate_and_reserve cfg s o).2 os

/-- Exposure limits hold of a risk state: every per-symbol exposure is within
the per-symbol limit and the aggregate exposure is within the aggregate
limit. -/
def exposure_within (cfg : LiveRiskConfig) (s : RiskState) : Prop :=
  (∀ sym, |s.exposure sym| ≤ cfg.max_symbol_exposure) ∧
    s.aggExposure ≤ cfg.max_aggregate_exposure

/-- Modelled from the spec: `Fill` of the missing `ml4t/live/safety.py`
(spec section 3): order id, symbol, signed quantity, price, timestamp,
plus the unique fill id keying idempotence. -/
structure Fill where
  fillId : Nat
  orderId : Nat
  symbol : String
  qty : Int
  price : Int
  ts : Nat
deriving DecidableEq

/-- Modelled from the spec: `VirtualPortfolio` of the missing
`ml4t/live/safety.py` (spec sections 3 and 4.4): cash balance, position per
symbol, last-updated timestamp, and the set of fill ids already applied. -/
structure VirtualPortfolio where
  cash : Int
  positions : String → Int
  seenFills : List Nat
  lastUpdated : Nat

/-- Modelled from the spec: `VirtualPortfolio.apply_fill` of the missing
`ml4t/live/safety.py` (spec section 4.4) — mutates cash and position from a
confirmed fill; a fill id that was already applied is a no-op. -/
def apply_fill (p : VirtualPortfolio) (f : Fill) : VirtualPortfolio :=
  if f.fillId ∈ p.seenFills then p
  else
    { cash := p.cash - f.qty * f.price,
      positions := fun x =>
        if x = f.symbol then p.positions x + f.qty else p.positions x,
      seenFills := f.fillId :: p.seenFills,
      lastUpdated := f.ts }

/-- Possible results of the underlying (wrapped) broker call. -/
inductive BrokerResult where
  | handle (orderId : Nat)
  | timeout
  | connectionFailure
  | rejectedByVenue
deriving DecidableEq

/-- Result of `SafeBroker.submit` surfaced to the caller. -/
inductive SubmitResult where
  | riskRejected (reason : RejectReason)
  | accepted (orderId : Nat)
  | timeoutError
  | connectionError
  | venueRejected
deriving DecidableEq

/-- Modelled from the spec: `SafeBroker.submit` of the missing
`ml4t/live/safety.py` (spec section 4.5). The risk gate runs first; on
rejection the call returns without touching the underlying broker; on
approval the order is forwarded to the wrapped broker, and on timeout,
connection failure or venue rejection the reservation is released and the
failure propagated. The last component of the result is the trace of order
intents actually sent to the underlying broker. -/
def submit (cfg : LiveRiskConfig) (broker : OrderIntent → BrokerResult)
    (s : RiskState) (p : VirtualPortfolio) (o : OrderIntent) :
    SubmitResult × RiskState × VirtualPortfolio × List OrderIntent :=
  match evaluate_and_reserve cfg s o with
  | (RiskOutcome.rejected r, s1) => (SubmitResult.riskRejected r, s1, p, [])
  | (RiskOutcome.approved, s1) =>
    match broker o with
    | BrokerResult.handle i => (SubmitResult.accepted i, s1, p, [o])
    | BrokerResult.timeout =>
      (SubmitResult.timeoutError, release_reservation s1 o, p, [o])
    | BrokerResult.connectionFailure =>
      (SubmitResult.connectionError, release_reservation s1 o, p, [o])
    | BrokerResult.rejectedByVenue =>
      (SubmitResult.venueRejected, release_reservation s1 o, p, [o])

/-- Modelled from the spec: a raw market tick of the missing
`ml4t/live/feeds/aggregator.py` (spec section 6): symbol, price, size,
timestamp. -/
structure Tick where
  symbol : String
  price : Int
  size : Nat
  ts : Nat
deriving DecidableEq

/-- Modelled from the spec: `Bar` of the missing
`ml4t/live/feeds/aggregator.py` (spec section 3): OHLCV fields, interval
boundaries, is-final flag. The open price field is `openPx` because `open`
is reserved in Lean. -/
structure Bar where
  symbol : String
  openPx : Int
  high : Int
  low : Int
  close : Int
  volume : Nat
  startTs : Nat
  endTs : Nat
  isFinal : Bool
deriving DecidableEq

/-- Lookup of the in-progress bar of a symbol in the bar buffer. -/
def lookupBar : List (String × Bar) → String → Option Bar
  | [], _ => none
  | (k, b) :: rest, sym => if k = sym then some b else lookupBar rest sym

/-- Insert or replace the in-progress bar of a symbol in the bar buffer. -/
def insertBar : List (String × Bar) → String → Bar → List (String × Bar)
  | [], sym, b => [(sym, b)]
  | (k, b0) :: rest, sym, b =>
    if k = sym then (sym, b) :: rest else (k, b0) :: insertBar rest sym b

/-- Modelled from the spec: `BarAggregator` of the missing
`ml4t/live/feeds/aggregator.py` (spec section 4.6): the bar interval length
and the bar buffer mapping each symbol to its in-progress bar. -/
structure BarAggregator where
  interval : Nat
  buffer : List (String × Bar)
deriving DecidableEq

/-- Fresh in-progress bar created from the first tick of an interval. -/
def newBar (interval : Nat) (t : Tick) : Bar :=
  { symbol := t.symbol,
    openPx := t.price,
    high := t.price,
    low := t.price,
    close := t.price,
    volume := t.size,
    startTs := t.ts / interval * interval,
    endTs := t.ts / interval * interval + interval,
    isFinal := false }

/-- Update of an in-progress bar by a tick inside its interval: extend high
and low, set close, accumulate volume. -/
def updateBar (b : Bar) (t : Tick) : Bar :=
  { b with
    high := max b.high t.price,
    low := min b.low t.price,
    close := t.price,
    volume := b.volume + t.size }

/-- Modelled from the spec: the per-tick step of the missing
`ml4t/live/feeds/aggregator.py` (spec section 4.6). A tick older than the
open bar's start is discarded; a tick inside the interval updates the bar;
a tick past the boundary seals and emits the old bar and opens a new one.
Returns the new aggregator state and the emitted sealed bar, if any. -/
def process_tick (ag : BarAggregator) (t : Tick) :
    BarAggregator × Option Bar :=
  match lookupBar ag.buffer t.symbol with
  | none =>
    ({ ag with buffer := insertBar ag.buffer t.symbol (newBar ag.interval t) },
     none)
  | some b =>
    if t.ts < b.startTs then (ag, none)
    else if t.ts < b.endTs then
      ({ ag with buffer := insertBar ag.buffer t.symbol (updateBar b t) },
       none)
    else
      ({ ag with
          buffer := insertBar ag.buffer t.symbol (newBar ag.interval t) },
       some { b with isFinal := true })

/-- Run of the bar aggregator over an ordered tick stream, collecting the
emitted sealed bars in emission order. -/
def run_aggregator (ag : BarAggregator) : List Tick → BarAggregator × List Bar
  | [] => (ag, [])
  | t :: ts =>
    match process_tick ag t with
    | (ag1, none) => run_aggregator ag1 ts
    | (ag1, some b) =>
      match run_aggregator ag1 ts with
      | (agF, rest) => (agF, b :: rest)

/-- Observable fields of a sealed bar: open, high, low, close, volume, start
and end boundaries. -/
def barFields (b : Bar) : Int × Int × Int × Int × Nat × Nat × Nat :=
  (b.openPx, b.high, b.low, b.close, b.volume, b.startTs, b.endTs)

/-- Concrete risk configuration used by witnesses: per-symbol exposure limit
100, aggregate limit 1000, daily loss limit 5000, at most 10 orders per
window, worst-case adverse loss treated as zero. -/
def cfg0 : LiveRiskConfig :=
  { max_order_notional := 1000000,
    max_symbol_exposure := 100,
    max_aggregate_exposure := 1000,
    max_daily_loss := 5000,
    max_orders_per_window := 10,
    window_duration := 60,
    worst_case_loss := fun _ => 0 }

/-- Concrete pristine risk state used by witnesses: no exposure, no loss, no
orders in the window, kill-switch clear. -/
def s0 : RiskState :=
  { exposure := fun _ => 0,
    aggExposure := 0,
    dailyLoss := 0,
    windowCount := 0,
    killSwitch := false }

/-- Concrete risk state with a tripped kill-switch, used by witnesses. -/
def sKill : RiskState :=
  { exposure := fun _ => 0,
    aggExposure := 0,
    dailyLoss := 6000,
    windowCount := 0,
    killSwitch := true }

/-- Concrete buy order of 40 shares at price 1, used by witnesses. -/
def o40 : OrderIntent :=
  { symbol := "AAPL", side := Side.buy, qty := 40, price := 1, clientId := 1 }

/-- Concrete buy order of 80 shares at price 1, used by witnesses. -/
def o80 : OrderIntent :=
  { symbol := "AAPL", side := Side.buy, qty := 80, price := 1, clientId := 2 }

/-- Concrete portfolio used by witnesses. -/
def p0 : VirtualPortfolio :=
  { cash := 100000,
    positions := fun _ => 0,
    seenFills := [],
    lastUpdated := 0 }

/-- Concrete open bar used by witnesses: interval start 60, end 120. -/
def bar1 : Bar :=
  { symbol := "AAPL", openPx := 10, high := 12, low := 9, close := 11,
    volume := 5, startTs := 60, endTs := 120, isFinal := false }

/-- Concrete aggregator holding `bar1` as the open bar for AAPL. -/
def ag1 : BarAggregator :=
  { interval := 60, buffer := [("AAPL", bar1)] }

/-- Concrete late tick: timestamp 10, before the start of `bar1`. -/
def tLate : Tick :=
  { symbol := "AAPL", price := 7, size := 3, ts := 10 }

/-- Concrete tick stream used by the determinism witness. -/
def ticks0 : List Tick :=
  [{ symbol := "AAPL", price := 10, size := 1, ts := 61 },
   { symbol := "AAPL", price := 11, size := 2, ts := 70 },
   { symbol := "AAPL", price := 9, size := 1, ts := 125 }]

/-- Concrete sequence of risk operations containing no operator reset, used
by the kill-switch witness. -/
def ops0 : List RiskOp :=
  [RiskOp.eval o40, RiskOp.recordPnl 50, RiskOp.release o40]

/-- Concrete broker that accepts every order, used by witnesses. -/
def brokerOk : OrderIntent → BrokerResult :=
  fun _ => BrokerResult.handle 7

/-- Concrete broker whose every call times out, used by witnesses. -/
def brokerTimeout : OrderIntent → BrokerResult :=
  fun _ => BrokerResult.timeout

/-- Rejection leaves the risk state unchanged: an `evaluate_and_reserve` call
whose outcome is a rejection returns exactly the input state. -/
theorem eval_eq_of_rejected (cfg : LiveRiskConfig) (s : RiskState)
    (o : OrderIntent) (r : RejectReason)
    (h : (evaluate_and_reserve cfg s o).1 = RiskOutcome.rejected r) :
    evaluate_and_reserve cfg s o = (RiskOutcome.rejected r, s) := by
  unfold evaluate_and_reserve at h ⊢
  split_ifs at h ⊢ <;> simp_all

/-- Approval commits the reservation: an `evaluate_and_reserve` call whose
outcome is approval returns the state with the reservation committed. -/
theorem eval_eq_of_approved (cfg : LiveRiskConfig) (s : RiskState)
    (o : OrderIntent)
    (h : (evaluate_and_reserve cfg s o).1 = RiskOutcome.approved) :
    evaluate_and_reserve cfg s o = (RiskOutcome.approved, commitReservation s o) := by
  unfold evaluate_and_reserve at h ⊢
  split_ifs at h ⊢ <;> simp_all

/-- A tripped kill-switch forces rejection with the kill-switch reason. -/
theorem eval_fst_of_kill (cfg : LiveRiskConfig) (s : RiskState)
    (o : OrderIntent) (hk : s.killSwitch = true) :
    (evaluate_and_reserve cfg s o).1 =
      RiskOutcome.rejected RejectReason.killSwitchTripped := by
  simp [evaluate_and_reserve, hk]

/-- A projected per-symbol exposure beyond the limit forces a non-approval. -/
theorem eval_not_approved_of_exposure (cfg : LiveRiskConfig) (s : RiskState)
    (o : OrderIntent)
    (h : cfg.max_symbol_exposure < |s.exposure o.symbol + signedNotional o|) :
    (evaluate_and_reserve cfg s o).1 ≠ RiskOutcome.approved := by
  unfold evaluate_and_reserve
  split_ifs with h1 h2 <;> simp_all

/-- Every non-reset risk operation preserves a tripped kill-switch. -/
theorem stepRisk_preserves_kill (cfg : LiveRiskConfig) (s : RiskState)
    (op : RiskOp) (hk : s.killSwitch = true)
    (hop : op ≠ RiskOp.operatorReset) :
    (stepRisk cfg s op).killSwitch = true := by
  cases op with
  | eval o => simp [stepRisk, evaluate_and_reserve, hk]
  | release o => simpa [stepRisk, release_reservation] using hk
  | recordPnl d => simp [stepRisk, record_pnl, hk]
  | operatorReset => exact absurd rfl hop

/-- C5: `evaluate_and_reserve` returns Rejected exactly when the kill-switch
is tripped, or the projected exposure exceeds the per-symbol or aggregate
limit, or the projected worst-case daily loss bound exceeds the daily loss
limit, or the rolling order-rate counter exceeds its window limit; otherwise
it returns Approved. -/
theorem eval_rejects_iff (cfg : LiveRiskConfig) (s : RiskState)
    (o : OrderIntent) :
    (evaluate_and_reserve cfg s o).1 ≠ RiskOutcome.approved ↔
      (s.killSwitch = true ∨
       cfg.max_symbol_exposure < |s.exposure o.symbol + signedNotional o| ∨
       cfg.max_aggregate_exposure <
         s.aggExposure + |s.exposure o.symbol + signedNotional o|
           - |s.exposure o.symbol| ∨
       cfg.max_daily_loss < s.dailyLoss + cfg.worst_case_loss o ∨
       cfg.max_orders_per_window ≤ s.windowCount) := by
  unfold evaluate_and_reserve
  split_ifs with h1 h2 h3 h4 <;> simp_all <;> tauto

/-- C2: once the kill-switch of `RiskState` is tripped, any sequence of risk
operations that contains no explicit operator reset leaves it tripped, and
in the resulting state every order submission is rejected:
`evaluate_and_reserve` never returns Approved until an explicit reset. -/
theorem kill_switch_monotonic (cfg : LiveRiskConfig) (s : RiskState)
    (ops : List RiskOp) (hk : s.killSwitch = true)
    (hops : ∀ op ∈ ops, op ≠ RiskOp.operatorReset) :
    (List.foldl (stepRisk cfg) s ops).killSwitch = true ∧
      ∀ o, (evaluate_and_reserve cfg (List.foldl (stepRisk cfg) s ops) o).1 =
        RiskOutcome.rejected RejectReason.killSwitchTripped := by
  have hfold : (List.foldl (stepRisk cfg) s ops).killSwitch = true := by
    induction ops generalizing s with
    | nil => exact hk
    | cons op rest ih =>
      simp only [List.foldl_cons]
      exact ih (stepRisk cfg s op)
        (stepRisk_preserves_kill cfg s op hk
          (hops op (List.mem_cons_self op rest)))
        (fun op' hop' => hops op' (List.mem_cons_of_mem op hop'))
  exact ⟨hfold, fun o => eval_fst_of_kill cfg _ o hfold⟩

/-- C6: `apply_fill` is idempotent per fill id: applying the same fill twice
yields the same cash balance and the same positions as applying it once —
indeed the same portfolio state entirely. -/
theorem apply_fill_idempotent (p : VirtualPortfolio) (f : Fill) :
    (apply_fill (apply_fill p f) f).cash = (apply_fill p f).cash ∧
      (apply_fill (apply_fill p f) f).positions = (apply_fill p f).positions ∧
      apply_fill (apply_fill p f) f = apply_fill p f := by
  have h2 : apply_fill (apply_fill p f) f = apply_fill p f := by
    by_cases h : f.fillId ∈ p.seenFills
    · simp [apply_fill, h]
    · simp [apply_fill, h]
  exact ⟨by rw [h2], by rw [h2], h2⟩

/-- Releasing a reservation right after committing it restores the
per-symbol exposure map exactly. -/
theorem release_commit_exposure (s : RiskState) (o : OrderIntent) :
    (release_reservation (commitReservation s o) o).exposure = s.exposure := by
  funext x
  by_cases hx : x = o.symbol
  · simp [release_reservation, commitReservation, hx]
  · simp [release_reservation, commitReservation, hx]

/-- Releasing a reservation right after committing it restores the
aggregate exposure exactly. -/
theorem release_commit_agg (s : RiskState) (o : OrderIntent) :
    (release_reservation (commitReservation s o) o).aggExposure =
      s.aggExposure := by
  simp [release_reservation, commitReservation]

/-- C3: when the risk gate rejects an order, `submit` returns the rejection
with the risk state, the portfolio and an empty broker-call trace untouched;
conversely a non-empty broker-call trace implies the risk gate approved, so
the underlying broker is contacted only after approval. -/
theorem submit_rejected_no_broker_call (cfg : LiveRiskConfig)
    (broker : OrderIntent → BrokerResult) (s : RiskState)
    (p : VirtualPortfolio) (o : OrderIntent) :
    (∀ r, (evaluate_and_reserve cfg s o).1 = RiskOutcome.rejected r →
        submit cfg broker s p o = (SubmitResult.riskRejected r, s, p, [])) ∧
      ((submit cfg broker s p o).2.2.2 ≠ [] →
        (evaluate_and_reserve cfg s o).1 = RiskOutcome.approved) := by
  constructor
  · intro r h
    have he := eval_eq_of_rejected cfg s o r h
    simp [submit, he]
  · intro hne
    cases hc : (evaluate_and_reserve cfg s o).1 with
    | approved => rfl
    | rejected r =>
      have he := eval_eq_of_rejected cfg s o r hc
      simp [submit, he] at hne

/-- C4: when the risk gate approves an order and the broker call times out,
`submit` surfaces a timeout error, leaves the virtual portfolio unchanged,
and releases the reservation: the risk state's per-symbol and aggregate
exposure are exactly as before the call. -/
theorem submit_timeout_releases_reservation (cfg : LiveRiskConfig)
    (broker : OrderIntent → BrokerResult) (s : RiskState)
    (p : VirtualPortfolio) (o : OrderIntent)
    (happ : (evaluate_and_reserve cfg s o).1 = RiskOutcome.approved)
    (ht : broker o = BrokerResult.timeout) :
    (submit cfg broker s p o).1 = SubmitResult.timeoutError ∧
      (submit cfg broker s p o).2.2.1 = p ∧
      (submit cfg broker s p o).2.1.exposure = s.exposure ∧
      (submit cfg broker s p o).2.1.aggExposure = s.aggExposure := by
  have he := eval_eq_of_approved cfg s o happ
  refine ⟨?_, ?_, ?_, ?_⟩ <;>
    simp [submit, he, ht, release_commit_exposure, release_commit_agg]

/-- C7: a tick older than the start of the symbol's open bar is discarded:
`process_tick` leaves the aggregator state (hence the open bar's open, high,
low, close, volume and boundaries) unchanged and emits no bar, and the open
bar is still found unchanged in the buffer afterwards. -/
theorem late_tick_discarded (ag : BarAggregator) (t : Tick) (b : Bar)
    (hb : lookupBar ag.buffer t.symbol = some b) (hlt : t.ts < b.startTs) :
    process_tick ag t = (ag, none) ∧
      lookupBar (process_tick ag t).1.buffer t.symbol = some b := by
  have h1 : process_tick ag t = (ag, none) := by
    unfold process_tick
    rw [hb]
    simp [hlt]
  exact ⟨h1, by rw [h1]; exact hb⟩

/-- C8: the bar aggregator is deterministic: two runs over identical ordered
tick streams emit equal sealed-bar sequences, in particular equal
field-by-field on open, high, low, close, volume and the interval
boundaries. -/
theorem aggregator_deterministic (ag : BarAggregator) (ts1 ts2 : List Tick)
    (h : ts1 = ts2) :
    (run_aggregator ag ts1).2 = (run_aggregator ag ts2).2 ∧
      List.map barFields (run_aggregator ag ts1).2 =
        List.map barFields (run_aggregator ag ts2).2 := by
  subst h
  exact ⟨rfl, rfl⟩

/-- One `evaluate_and_reserve` call preserves the exposure limits: a
rejection leaves the state unchanged and an approval was checked against
the projected exposure before the commit. -/
theorem exposure_within_step (cfg : LiveRiskConfig) (s : RiskState)
    (o : OrderIntent) (h : exposure_within cfg s) :
    exposure_within cfg (evaluate_and_reserve cfg s o).2 := by
  unfold exposure_within at h ⊢
  unfold evaluate_and_reserve
  split_ifs with h1 h2 h3 h4
  · exact h
  · exact h
  · exact h
  · exact h
  · push_neg at h2
    obtain ⟨hsym, hagg⟩ := h2
    constructor
    · intro sym
      by_cases hx : sym = o.symbol
      · simpa [commitReservation, hx] using hsym
      · simpa [commitReservation, hx] using h.1 sym
    · simpa [commitReservation] using hagg

/-- A whole sequence of `evaluate_and_reserve` calls preserves the exposure
limits. -/
theorem exposure_within_run (cfg : LiveRiskConfig) (s : RiskState)
    (os : List OrderIntent) (h : exposure_within cfg s) :
    exposure_within cfg (run_evals cfg s os) := by
  induction os generalizing s with
  | nil => exact h
  | cons o rest ih =>
    exact ih (evaluate_and_reserve cfg s o).2 (exposure_within_step cfg s o h)

/-- C1 (amended): the reservation of an approved `evaluate_and_reserve` call
is committed before the call returns (the returned state already carries the
order's signed notional); for every sequence of calls (the serialized
interleaving of concurrent callers) the exposure reserved by approved calls
never exceeds the per-symbol or aggregate limit; and for two calls each of
which would individually be approved but whose joint notional exceeds the
per-symbol limit, at most one of the two is approved. -/
theorem risk_reservation_no_joint_breach :
    (∀ (cfg : LiveRiskConfig) (s : RiskState) (o : OrderIntent),
        (evaluate_and_reserve cfg s o).1 = RiskOutcome.approved →
        ((evaluate_and_reserve cfg s o).2).exposure o.symbol =
          s.exposure o.symbol + signedNotional o) ∧
      (∀ (cfg : LiveRiskConfig) (s : RiskState) (os : List OrderIntent),
        exposure_within cfg s → exposure_within cfg (run_evals cfg s os)) ∧
      (∀ (cfg : LiveRiskConfig) (s : RiskState) (o1 o2 : OrderIntent),
        o2.symbol = o1.symbol →
        (evaluate_and_reserve cfg s o1).1 = RiskOutcome.approved →
        (evaluate_and_reserve cfg s o2).1 = RiskOutcome.approved →
        cfg.max_symbol_exposure <
          |s.exposure o1.symbol + signedNotional o1 + signedNotional o2| →
        (evaluate_and_reserve cfg (evaluate_and_reserve cfg s o1).2 o2).1 ≠
          RiskOutcome.approved) := by
  refine ⟨?_, ?_, ?_⟩
  · intro cfg s o h
    rw [eval_eq_of_approved cfg s o h]
    simp [commitReservation]
  · intro cfg s os h
    exact exposure_within_run cfg s os h
  · intro cfg s o1 o2 hsym h1 h2 hjoint
    rw [eval_eq_of_approved cfg s o1 h1]
    apply eval_not_approved_of_exposure
    have hexp : (commitReservation s o1).exposure o2.symbol =
        s.exposure o1.symbol + signedNotional o1 := by
      simp [commitReservation, hsym]
    rw [hexp]
    exact hjoint

/-- C1 (counterexample): three sequential calls for 40 shares each against a
pristine state with per-symbol limit 100 are each individually approvable and
jointly exceed the limit, yet two of them — not at most one — are approved. -/
theorem three_orders_two_approved :
    (∀ o ∈ [o40, o40, o40],
        (evaluate_and_reserve cfg0 s0 o).1 = RiskOutcome.approved) ∧
      cfg0.max_symbol_exposure <
        |s0.exposure o40.symbol + signedNotional o40 + signedNotional o40 +
          signedNotional o40| ∧
      count_approved cfg0 s0 [o40, o40, o40] = 2 ∧
      ¬ count_approved cfg0 s0 [o40, o40, o40] ≤ 1 := by
  refine ⟨by decide, by decide, by decide, by decide⟩

/-- C1 witness: the amended theorem applied at concrete inputs — commit
visible on return for a 40-share order from the pristine state, the exposure
invariant after three sequential calls, and rejection of the second of two
jointly over-limit orders. -/
theorem risk_reservation_no_joint_breach_witness :
    ((evaluate_and_reserve cfg0 s0 o40).2).exposure o40.symbol =
        s0.exposure o40.symbol + signedNotional o40 ∧
      exposure_within cfg0 (run_evals cfg0 s0 [o40, o40, o40]) ∧
      (evaluate_and_reserve cfg0 (evaluate_and_reserve cfg0 s0 o40).2 o80).1 ≠
        RiskOutcome.approved :=
  ⟨risk_reservation_no_joint_breach.1 cfg0 s0 o40 (by decide),
   risk_reservation_no_joint_breach.2.1 cfg0 s0 [o40, o40, o40]
     ⟨fun sym => by norm_num [s0, cfg0], by norm_num [s0, cfg0]⟩,
   risk_reservation_no_joint_breach.2.2 cfg0 s0 o40 o80 rfl (by decide)
     (by decide) (by decide)⟩

/-- C2 witness: the kill-switch theorem applied to a tripped state and a
concrete reset-free operation sequence, with a concrete order rejected at
the end. -/
theorem kill_switch_monotonic_witness :
    (List.foldl (stepRisk cfg0) sKill ops0).killSwitch = true ∧
      (evaluate_and_reserve cfg0 (List.foldl (stepRisk cfg0) sKill ops0)
          o40).1 = RiskOutcome.rejected RejectReason.killSwitchTripped :=
  ⟨(kill_switch_monotonic cfg0 sKill ops0 rfl (by decide)).1,
   (kill_switch_monotonic cfg0 sKill ops0 rfl (by decide)).2 o40⟩

/-- C3 witness: the rejected-submission theorem applied at concrete inputs —
a kill-switched state yields a risk rejection with an empty broker trace,
and a pristine state whose submission does reach the broker was approved. -/
theorem submit_rejected_no_broker_call_witness :
    submit cfg0 brokerOk sKill p0 o40 =
        (SubmitResult.riskRejected RejectReason.killSwitchTripped, sKill, p0,
          []) ∧
      (evaluate_and_reserve cfg0 s0 o40).1 = RiskOutcome.approved :=
  ⟨(submit_rejected_no_broker_call cfg0 brokerOk sKill p0 o40).1
      RejectReason.killSwitchTripped (by decide),
   (submit_rejected_no_broker_call cfg0 brokerOk s0 p0 o40).2 (by decide)⟩

/-- C4 witness: the timeout theorem applied at concrete inputs — an approved
40-share order whose broker call times out surfaces the timeout, keeps the
portfolio, and restores the exposure. -/
theorem submit_timeout_releases_reservation_witness :
    (submit cfg0 brokerTimeout s0 p0 o40).1 = SubmitResult.timeoutError ∧
      (submit cfg0 brokerTimeout s0 p0 o40).2.2.1 = p0 ∧
      (submit cfg0 brokerTimeout s0 p0 o40).2.1.exposure = s0.exposure ∧
      (submit cfg0 brokerTimeout s0 p0 o40).2.1.aggExposure =
        s0.aggExposure :=
  submit_timeout_releases_reservation cfg0 brokerTimeout s0 p0 o40
    (by decide) rfl

/-- C7 witness: the late-tick theorem applied at a concrete aggregator whose
open AAPL bar starts at 60 and a tick stamped 10. -/
theorem late_tick_discarded_witness :
    process_tick ag1 tLate = (ag1, none) ∧
      lookupBar (process_tick ag1 tLate).1.buffer tLate.symbol = some bar1 :=
  late_tick_discarded ag1 tLate bar1 (by decide) (by decide)

/-- C8 witness: the determinism theorem applied to two runs over the same
concrete tick stream. -/
theorem aggregator_deterministic_witness :
    (run_aggregator ag1 ticks0).2 = (run_aggregator ag1 ticks0).2 ∧
      List.map barFields (run_aggregator ag1 ticks0).2 =
        List.map barFields (run_aggregator ag1 ticks0).2 :=
  aggregator_deterministic ag1 ticks0 ticks0 rfl

/-- C9: the public API of `ml4t.live` consists of exactly the fifteen names
of `__all__`: every name in `__all__` is bound by an import statement of the
module, every imported name appears in `__all__`, and `__all__` is exactly
the claimed fifteen-name list. -/
theorem module_all_matches_imports :
    module_all.length = 15 ∧
      (∀ n ∈ module_all, n ∈ importedNames) ∧
      (∀ n ∈ importedNames, n ∈ module_all) ∧
      module_all =
        ["AlpacaBroker", "IBBroker", "AlpacaDataFeed", "BarAggregator",
         "BarBuffer", "LiveEngine", "AsyncBrokerProtocol", "BrokerProtocol",
         "DataFeedProtocol", "LiveRiskConfig", "RiskLimitError", "RiskState",
         "SafeBroker", "VirtualPortfolio", "ThreadSafeBrokerWrapper"] := by
  refine ⟨rfl, by decide, by decide, rfl⟩

/-- C10: the risk-rejection failure type exported by the package is
`RiskLimitError`, imported from the safety module alongside `SafeBroker` and
`RiskState`; no name `RiskRejected` is imported or exported. -/
theorem risk_limit_error_is_public_rejection_type :
    "RiskLimitError" ∈ module_all ∧
      "RiskLimitError" ∈ safety_imports ∧
      "SafeBroker" ∈ safety_imports ∧
      "RiskState" ∈ safety_imports ∧
      "RiskRejected" ∉ module_all ∧
      "RiskRejected" ∉ importedNames := by
  refine ⟨by decide, by decide, by decide, by decide, by decide, by decide⟩
